import Mathlib

/-!
Verification of the translation-api service (FastAPI + S3 backed).

We give a shallow embedding of `src/main.py`: the S3 bucket is a list of
objects (key, last-modified instant, stored translation record); external
collaborators (language detector, translation provider, storage success or
failure, the clock) are supplied as an explicit environment, and the
endpoint handlers become pure functions over bucket states.
-/

namespace TranslationApi

/-- A persisted translation record: the JSON object built in
`translate_text` (`src/main.py`, lines 125-136) and stored in the bucket. -/
structure TranslationRecord where
  id : Nat
  original_text : String
  original_lang : String
  translated_text : String
  output_lang : String
  timestamp : String
  mismatch_detected : Bool
deriving Repr, DecidableEq

/-- One object in the S3 bucket: its key, the last-modified instant the
store reports for it, and the record its body deserializes to. -/
structure S3Object where
  key : String
  lastModified : Nat
  record : TranslationRecord
deriving Repr, DecidableEq

/-- The state of the S3 bucket. -/
abbrev Bucket := List S3Object

/-- `str.lower()` on one character: ASCII upper-case letters map to their
lower-case counterparts (structurally, so terms reduce). -/
def toLowerChar (c : Char) : Char :=
  if 65 ≤ c.toNat ∧ c.toNat ≤ 90 then Char.ofNat (c.toNat + 32) else c

/-- Python `str.lower()` (ASCII): lower-case every character. -/
def pyLower (s : String) : String := ⟨s.data.map toLowerChar⟩

/-- Character comparison by code point. -/
def charLt (a b : Char) : Bool := a.val < b.val

/-- Lexicographic order on character lists. -/
def charListLt : List Char → List Char → Bool
  | _, [] => false
  | [], _ :: _ => true
  | a :: as, b :: bs =>
    if charLt a b then true else if charLt b a then false else charListLt as bs

/-- Lexicographic order on keys, as S3 lists object keys. -/
def strLt (s t : String) : Bool := charListLt s.data t.data

/-- Stable insertion of `x` into a list ascending by `measure`: `x` goes
after every element whose measure is `≤ measure x` (Python `sorted` is a
stable ascending sort). -/
def insertAsc (measure : S3Object → Nat) (x : S3Object) : List S3Object → List S3Object
  | [] => [x]
  | y :: ys => if measure x < measure y then x :: y :: ys else y :: insertAsc measure x ys

/-- Stable ascending sort by `measure`, processing elements left to right. -/
def sortAsc (measure : S3Object → Nat) (l : List S3Object) : List S3Object :=
  l.foldl (fun acc x => insertAsc measure x acc) []

/-- Stable insertion of `x` into a list whose keys ascend lexicographically. -/
def insertByKey (x : S3Object) : List S3Object → List S3Object
  | [] => [x]
  | y :: ys => if strLt x.key y.key then x :: y :: ys else y :: insertByKey x ys

/-- `list_objects_v2`: S3 returns the bucket contents in ascending
lexicographic key order. -/
def list_objects_v2 (bucket : Bucket) : List S3Object :=
  bucket.foldl (fun acc x => insertByKey x acc) []

/-- `get_object`: fetch the body stored under `key`, if present. -/
def get_object (bucket : Bucket) (key : String) : Option TranslationRecord :=
  (bucket.find? (fun o => o.key == key)).map (fun o => o.record)

/-- `save_to_s3` / `put_object` (`src/main.py`, lines 34-50): write the
record under `key`; S3 `put_object` overwrites an existing key, and the
store stamps the object with the last-modified instant `lm`. -/
def save_to_s3 (bucket : Bucket) (key : String) (lm : Nat) (rec : TranslationRecord) : Bucket :=
  if bucket.any (fun o => o.key == key) then
    bucket.map (fun o => if o.key == key then ⟨key, lm, rec⟩ else o)
  else
    bucket ++ [⟨key, lm, rec⟩]

/-- `fetch_latest_id` (`src/main.py`, lines 52-72): if the bucket is empty
return 0; otherwise stably sort the listing by last-modified time, take the
key of the last element, fetch that object and return its `id` field. -/
def fetch_latest_id (bucket : Bucket) : Nat :=
  if bucket.isEmpty then 0
  else
    match (sortAsc (fun o => o.lastModified) (list_objects_v2 bucket)).getLast? with
    | none => 0
    | some latest =>
      match get_object bucket latest.key with
      | some rec => rec.id
      | none => 0

/-- Modelled from the spec (`next_id`, §4.1): the true maximum `id` over all
currently stored records — what the spec demands the assignment scan find. -/
def spec_max_id (bucket : Bucket) : Nat :=
  bucket.foldl (fun acc o => max acc o.record.id) 0

/-- The request body of POST /translate/ (`TranslationRequest`,
`src/main.py`, lines 15-18). `input_lang` is optional (`None` by default). -/
structure TranslationRequest where
  text : String
  target_lang : String
  input_lang : Option String := none
deriving Repr, DecidableEq

/-- The outcome of one call to `langdetect.detect(text)`: either it raises
`LangDetectException` (its documented failure mode), or it returns a string. -/
inductive DetectOutcome where
  | raises
  | returns (code : String)
deriving Repr, DecidableEq

/-- The outcome of one call to `GoogleTranslator(...).translate(text)`:
a translated string, or one of the exception classes the handler and the
application can observe (`ConnectionError`, `TimeoutError`, `RuntimeError`,
or an exception of any other type). -/
inductive TransOutcome where
  | ok (translated : String)
  | connectionError
  | timeoutError
  | runtimeError
  | otherException
deriving Repr, DecidableEq

/-- An exception an endpoint body terminates with, as the application layer
sees it: `fastapi.HTTPException` with a status and a detail message, a
`RuntimeError`, a `botocore ClientError` from the S3 client (unhandled in
`translate_text`), or an exception of any other type. -/
inductive PyError where
  | http (status : Nat) (detail : String)
  | runtime
  | clientError (operation : String)
  | otherExc
deriving Repr, DecidableEq

/-- The external collaborators of one /translate/ request: the supported
language codes (the values of `langs_dict`, `src/main.py` line 20), the
language detector's outcome, the provider's outcome, whether each S3 call
raises `ClientError`, the clock (`datetime.now().isoformat()`), and the
last-modified instant S3 stamps on the new object. -/
structure Env where
  supported : List String
  detect : DetectOutcome
  translate : TransOutcome
  listFails : Bool
  putFails : Bool
  now : String
  nowLM : Nat
deriving Repr, DecidableEq

/-- The bucket name used by `translate_text`. -/
def bucketName : String := "translation_api_translations_bucket"

/-- `translate_text` (`src/main.py`, lines 74-140), as a function from the
environment, the request and the bucket state to the outcome (the returned
record or the exception the body terminates with) and the new bucket state.
Mirrors the source line by line: target-language check (97), empty-text
check (100, Python truthiness: only `""` is falsy), detection with its
in-`try` validity check (103-108), provider call with `ConnectionError` and
`TimeoutError` handlers (110-116), identical-translation check (118),
`input_lang` fallback by truthiness (121), `fetch_latest_id` (123) — whose
`list_objects_v2` call can raise `ClientError`, unhandled here — record
construction (125-133), mismatch update (135-136), and `save_to_s3` (138),
whose `put_object` can also raise `ClientError`; a failed put writes
nothing. -/
def translate_text (env : Env) (req : TranslationRequest) (bucket : Bucket) :
    Except PyError TranslationRecord × Bucket :=
  if ¬ (env.supported.map pyLower).contains (pyLower req.target_lang) then
    (.error (.http 422 ("Invalid language code: " ++ req.target_lang ++
      ". Please check the list of supported languages.")), bucket)
  else if req.text = "" then
    (.error (.http 422 "Empty input provided. Please try again."), bucket)
  else
    match env.detect with
    | .raises =>
      (.error (.http 422 "Input language could not be detected. Please try again."), bucket)
    | .returns detected_lang =>
      if detected_lang = "" ∨ detected_lang.length ≠ 2 then
        (.error (.http 422 "Input language could not be detected. Please try again."), bucket)
      else
        match env.translate with
        | .connectionError =>
          (.error (.http 503 "Connection to translation service failed"), bucket)
        | .timeoutError =>
          (.error (.http 504 "Translation request timed out"), bucket)
        | .runtimeError => (.error .runtime, bucket)
        | .otherException => (.error .otherExc, bucket)
        | .ok translated_text =>
          if req.text = translated_text then
            (.error (.http 422
              "Translation error. Inputted text was not recognised. Please try again."), bucket)
          else
            let input_lang :=
              match req.input_lang with
              | some s => if s = "" then detected_lang else s
              | none => detected_lang
            if env.listFails then (.error (.clientError "ListObjectsV2"), bucket)
            else
              let latest_id := fetch_latest_id bucket
              let mismatch : Bool :=
                match req.input_lang with
                | some s => !(s == "") && !(s == detected_lang)
                | none => false
              let translation_info : TranslationRecord :=
                { id := latest_id + 1
                  original_text := req.text
                  original_lang := input_lang
                  translated_text := translated_text
                  output_lang := pyLower req.target_lang
                  timestamp := env.now
                  mismatch_detected := mismatch }
              if env.putFails then (.error (.clientError "PutObject"), bucket)
              else (.ok translation_info,
                save_to_s3 bucket translation_info.timestamp env.nowLM translation_info)

/-- `handle_runtime_errors` (`src/main.py`, lines 162-179): the response the
registered `RuntimeError` exception handler produces. -/
def handle_runtime_errors : Nat × String := (500, "An unexpected error occurred")

/-- The HTTP response (status, body detail) the application produces for an
exception escaping an endpoint body: an `HTTPException` is serialized with
its own status and detail, a `RuntimeError` is caught by the registered
handler `handle_runtime_errors`, and any other exception is unhandled by
the application, so the hosting framework returns its default
500 "Internal Server Error". -/
def http_response (e : PyError) : Nat × String :=
  match e with
  | .http status detail => (status, detail)
  | .runtime => handle_runtime_errors
  | .clientError _ => (500, "Internal Server Error")
  | .otherExc => (500, "Internal Server Error")

/-- The response body of GET /translations/. `items` are the records of the
`translations` array and `next_page` the continuation token when one is
present; `message` is the `{"message": ...}` shape. -/
inductive ListingResponse where
  | items (records : List TranslationRecord) (next_page : Option String)
  | message (msg : String)
deriving Repr, DecidableEq

/-- `get_translations` (`src/main.py`, lines 156-159): the handler takes no
store dependency and returns the constant `{'translations': []}` whatever
the bucket holds at request time; the bucket parameter records the store
state the request observes. -/
def get_translations (_bucket : Bucket) : ListingResponse :=
  .items [] none

/-! Concrete fixtures used by the theorems below. -/

/-- A sample stored record with identifier `i`. -/
def sampleRecord (i : Nat) : TranslationRecord :=
  { id := i, original_text := "Hello world", original_lang := "en",
    translated_text := "Hallo Welt", output_lang := "de",
    timestamp := toString i, mismatch_detected := false }

/-- A benign environment: five supported codes, detection yields "en",
the provider yields "Hallo Welt", both S3 calls succeed. -/
def defaultEnv : Env :=
  { supported := ["en", "de", "fr", "es", "lt"], detect := .returns "en",
    translate := .ok "Hallo Welt", listFails := false, putFails := false,
    now := "T0", nowLM := 7 }

/-- A store state in which modification-time order disagrees with id order:
the record holding the maximum id (5) was modified before the record
holding id 3. -/
def c1Bucket : Bucket :=
  [⟨"2024-01-01", 1, sampleRecord 5⟩, ⟨"2024-01-02", 2, sampleRecord 3⟩]

/-- A store state holding fifteen records. -/
def c3Bucket : Bucket :=
  (List.range 15).map (fun i => ⟨toString i, i, sampleRecord (i + 1)⟩)

/-- A store state holding two records, the one with id 2 most recent. -/
def c4Bucket : Bucket :=
  [⟨"2024-01-01", 1, sampleRecord 1⟩, ⟨"2024-01-02", 2, sampleRecord 2⟩]

/-- C1: `fetch_latest_id` reads the `id` of the single object S3 reports as
most recently modified, not the maximum id over all records. On `c1Bucket`
(max id 5, but modification-time order has the id-3 record last) the scan
yields 3, so the record a new request creates gets id 4, while the claimed
`max + 1` is 6; the empty-store case (id 1) does hold. -/
theorem fetch_latest_id_not_true_max :
    fetch_latest_id [] + 1 = 1 ∧
    fetch_latest_id c1Bucket + 1 = 4 ∧
    spec_max_id c1Bucket + 1 = 6 ∧
    (translate_text defaultEnv { text := "Hello world", target_lang := "de" } c1Bucket).1 =
      .ok { id := 4, original_text := "Hello world", original_lang := "en",
            translated_text := "Hallo Welt", output_lang := "de",
            timestamp := "T0", mismatch_detected := false } :=
  ⟨rfl, rfl, rfl, rfl⟩

/-- C2: on an empty store, GET /translations/ returns the plain empty array
`{'translations': []}`, not the `{'message': 'No translations found'}`
result the claim (and the repository's own test suite) requires. -/
theorem get_translations_empty_store_is_plain_empty_array :
    get_translations [] = .items [] none ∧
    get_translations [] ≠ .message "No translations found" :=
  ⟨rfl, by simp [get_translations]⟩

/-- C3: with fifteen records stored, GET /translations/ returns zero items
and no continuation token, although records remain beyond the returned page
— the claimed page of up to 10 items plus a `next_page` cursor (required by
the repository's own tests) is never produced. -/
theorem get_translations_never_returns_cursor :
    c3Bucket.length = 15 ∧ get_translations c3Bucket = .items [] none :=
  ⟨rfl, rfl⟩

/-- C4: on a non-empty store (two records, the id-2 record most recent),
GET /translations/ returns an empty item list, so the most recently created
record is not the first item of the output as the claim requires. -/
theorem get_translations_not_newest_first :
    c4Bucket.length = 2 ∧ get_translations c4Bucket = .items [] none :=
  ⟨rfl, rfl⟩

/-- C5: validation order of `translate_text`. A target language outside the
supported set (compared case-insensitively) fails first, with status 422
and the invalid-language message naming the target as provided, whatever
the text is; only with a supported target is blank text checked, failing
with status 422 and the empty-input message. -/
theorem translate_text_validation_order (env : Env) (req : TranslationRequest)
    (bucket : Bucket) :
    (¬ (env.supported.map pyLower).contains (pyLower req.target_lang) →
      (translate_text env req bucket).1 = .error (.http 422
        ("Invalid language code: " ++ req.target_lang ++
          ". Please check the list of supported languages."))) ∧
    ((env.supported.map pyLower).contains (pyLower req.target_lang) → req.text = "" →
      (translate_text env req bucket).1 =
        .error (.http 422 "Empty input provided. Please try again.")) := by
  constructor
  · intro h
    simp only [translate_text]
    rw [if_pos h]
  · intro h1 h2
    simp only [translate_text]
    rw [if_neg (not_not_intro h1), if_pos h2]

/-- Witness for C5: the request `{text := "", target_lang := "qq"}` fails
both checks and gets the invalid-language error (the first check wins), and
`{text := "", target_lang := "de"}` gets the empty-input error. -/
theorem translate_text_validation_order_witness :
    (translate_text defaultEnv { text := "", target_lang := "qq" } []).1 =
      .error (.http 422
        "Invalid language code: qq. Please check the list of supported languages.") ∧
    (translate_text defaultEnv { text := "", target_lang := "de" } []).1 =
      .error (.http 422 "Empty input provided. Please try again.") :=
  ⟨(translate_text_validation_order defaultEnv
      { text := "", target_lang := "qq" } []).1 (by decide),
   (translate_text_validation_order defaultEnv
      { text := "", target_lang := "de" } []).2 (by decide) rfl⟩

/-- On every control path of `translate_text` the returned bucket is either
the input bucket untouched, or the request succeeded. -/
theorem translate_text_store_cases (env : Env) (req : TranslationRequest)
    (bucket : Bucket) :
    (translate_text env req bucket).2 = bucket ∨
      ∃ r, (translate_text env req bucket).1 = .ok r := by
  simp only [translate_text]
  repeat' split
  all_goals first
    | exact Or.inl rfl
    | exact Or.inr ⟨_, rfl⟩

/-- C9: whenever `translate_text` ends in an error — invalid language,
empty input, detection failure, provider failure, untranslatable text, or a
storage exception — the bucket state it returns is the one it was given:
no record is persisted on any error path. -/
theorem translate_text_error_preserves_store (env : Env) (req : TranslationRequest)
    (bucket : Bucket) (e : PyError)
    (herr : (translate_text env req bucket).1 = .error e) :
    (translate_text env req bucket).2 = bucket := by
  rcases translate_text_store_cases env req bucket with h | ⟨r, hr⟩
  · exact h
  · rw [herr] at hr
    exact absurd hr (by simp)

/-- Witness for C9: a request whose provider call times out errors with
status 504 and leaves a one-record store exactly as it was. -/
theorem translate_text_error_preserves_store_witness :
    (translate_text { defaultEnv with translate := .timeoutError }
        { text := "Hello world", target_lang := "de" } c4Bucket).1 =
      .error (.http 504 "Translation request timed out") ∧
    (translate_text { defaultEnv with translate := .timeoutError }
        { text := "Hello world", target_lang := "de" } c4Bucket).2 = c4Bucket :=
  ⟨rfl, translate_text_error_preserves_store _ _ c4Bucket
    (.http 504 "Translation request timed out") rfl⟩

/-- C6: past the two input checks, `translate_text` answers with the
detection-failure error (status 422, its fixed message) exactly when the
detector raises, returns the empty string, or returns a code whose length
is not two characters. -/
theorem translate_text_detection_failure_iff (env : Env) (req : TranslationRequest)
    (bucket : Bucket)
    (hlang : (env.supported.map pyLower).contains (pyLower req.target_lang))
    (htext : req.text ≠ "") :
    ((translate_text env req bucket).1 =
        .error (.http 422 "Input language could not be detected. Please try again.")) ↔
      (env.detect = .raises ∨
        ∃ code, env.detect = .returns code ∧ (code = "" ∨ code.length ≠ 2)) := by
  simp only [translate_text]
  rw [if_neg (not_not_intro hlang), if_neg htext]
  split
  next heq =>
    rw [heq]
    simp
  next code heq =>
    rw [heq]
    by_cases hc : code = "" ∨ code.length ≠ 2
    · rw [if_pos hc]
      exact ⟨fun _ => Or.inr ⟨code, rfl, hc⟩, fun _ => rfl⟩
    · rw [if_neg hc]
      constructor
      · intro h
        exfalso
        repeat' split at h
        all_goals simp at h
      · rintro (h | ⟨c, hcd, hp⟩)
        · exact DetectOutcome.noConfusion h
        · injection hcd with hcc
          subst hcc
          exact absurd hp hc

/-- Witness for C6: with a valid target and non-empty text, a detector
returning the 7-character string "deutsch" yields the detection-failure
error. -/
theorem translate_text_detection_failure_iff_witness :
    (translate_text { defaultEnv with detect := .returns "deutsch" }
        { text := "Hello world", target_lang := "de" } []).1 =
      .error (.http 422 "Input language could not be detected. Please try again.") :=
  (translate_text_detection_failure_iff { defaultEnv with detect := .returns "deutsch" }
      { text := "Hello world", target_lang := "de" } [] (by decide) (by decide)).mpr
    (Or.inr ⟨"deutsch", rfl, Or.inr (by decide)⟩)

/-- C7: once the request reaches the provider call, a `ConnectionError`
yields status 503 with its message, a `TimeoutError` yields status 504 with
its message, a `RuntimeError` escapes the handler and the registered
exception handler answers 500 with the generic message, and an exception
of any other type also escapes and is answered 500 with the hosting
framework's generic message — no provider failure escapes this mapping. -/
theorem translate_text_provider_failure_mapping (env : Env) (req : TranslationRequest)
    (bucket : Bucket) (d : String)
    (hlang : (env.supported.map pyLower).contains (pyLower req.target_lang))
    (htext : req.text ≠ "")
    (hdet : env.detect = .returns d)
    (hd : ¬(d = "" ∨ d.length ≠ 2)) :
    (env.translate = .connectionError →
      (translate_text env req bucket).1 =
        .error (.http 503 "Connection to translation service failed")) ∧
    (env.translate = .timeoutError →
      (translate_text env req bucket).1 =
        .error (.http 504 "Translation request timed out")) ∧
    (env.translate = .runtimeError →
      (translate_text env req bucket).1 = .error .runtime ∧
        http_response .runtime = (500, "An unexpected error occurred")) ∧
    (env.translate = .otherException →
      (translate_text env req bucket).1 = .error .otherExc ∧
        http_response .otherExc = (500, "Internal Server Error")) := by
  simp only [translate_text, hdet]
  rw [if_neg (not_not_intro hlang), if_neg htext, if_neg hd]
  refine ⟨fun htr => ?_, fun htr => ?_, fun htr => ⟨?_, rfl⟩, fun htr => ⟨?_, rfl⟩⟩ <;>
    rw [htr]

/-- Witness for C7: the four provider failures at a concrete request map to
503, 504, and the two 500 responses. -/
theorem translate_text_provider_failure_mapping_witness :
    (translate_text { defaultEnv with translate := .connectionError }
        { text := "Hello world", target_lang := "de" } []).1 =
      .error (.http 503 "Connection to translation service failed") ∧
    (translate_text { defaultEnv with translate := .timeoutError }
        { text := "Hello world", target_lang := "de" } []).1 =
      .error (.http 504 "Translation request timed out") ∧
    ((translate_text { defaultEnv with translate := .runtimeError }
        { text := "Hello world", target_lang := "de" } []).1 = .error .runtime ∧
      http_response .runtime = (500, "An unexpected error occurred")) ∧
    ((translate_text { defaultEnv with translate := .otherException }
        { text := "Hello world", target_lang := "de" } []).1 = .error .otherExc ∧
      http_response .otherExc = (500, "Internal Server Error")) :=
  ⟨(translate_text_provider_failure_mapping { defaultEnv with translate := .connectionError }
      { text := "Hello world", target_lang := "de" } [] "en"
      (by decide) (by decide) rfl (by decide)).1 rfl,
   (translate_text_provider_failure_mapping { defaultEnv with translate := .timeoutError }
      { text := "Hello world", target_lang := "de" } [] "en"
      (by decide) (by decide) rfl (by decide)).2.1 rfl,
   (translate_text_provider_failure_mapping { defaultEnv with translate := .runtimeError }
      { text := "Hello world", target_lang := "de" } [] "en"
      (by decide) (by decide) rfl (by decide)).2.2.1 rfl,
   (translate_text_provider_failure_mapping { defaultEnv with translate := .otherException }
      { text := "Hello world", target_lang := "de" } [] "en"
      (by decide) (by decide) rfl (by decide)).2.2.2 rfl⟩

/-- C10: with a supported target language, `translate_text` answers the
empty-input error exactly when the text is the empty string; a non-empty
text — whitespace included — passes the check and reaches language
detection (here: the detector raising surfaces the detection error). -/
theorem translate_text_empty_input_iff (env : Env) (req : TranslationRequest)
    (bucket : Bucket)
    (hlang : (env.supported.map pyLower).contains (pyLower req.target_lang)) :
    ((translate_text env req bucket).1 =
        .error (.http 422 "Empty input provided. Please try again.") ↔ req.text = "") ∧
    (req.text ≠ "" → env.detect = .raises →
      (translate_text env req bucket).1 =
        .error (.http 422 "Input language could not be detected. Please try again.")) := by
  constructor
  · constructor
    · intro h
      by_contra htext
      simp only [translate_text] at h
      rw [if_neg (not_not_intro hlang), if_neg htext] at h
      repeat' split at h
      all_goals simp at h
    · intro h
      simp only [translate_text]
      rw [if_neg (not_not_intro hlang), if_pos h]
  · intro htext hdet
    simp only [translate_text, hdet]
    rw [if_neg (not_not_intro hlang), if_neg htext]

/-- Witness for C10: with target "de", empty text yields the empty-input
error, and the one-space text " " instead reaches detection and yields the
detection error when the detector raises. -/
theorem translate_text_empty_input_iff_witness :
    (translate_text { defaultEnv with detect := .raises }
        { text := "", target_lang := "de" } []).1 =
      .error (.http 422 "Empty input provided. Please try again.") ∧
    (translate_text { defaultEnv with detect := .raises }
        { text := " ", target_lang := "de" } []).1 =
      .error (.http 422 "Input language could not be detected. Please try again.") :=
  ⟨(translate_text_empty_input_iff { defaultEnv with detect := .raises }
      { text := "", target_lang := "de" } [] (by decide)).1.mpr rfl,
   (translate_text_empty_input_iff { defaultEnv with detect := .raises }
      { text := " ", target_lang := "de" } [] (by decide)).2 (by decide) rfl⟩

/-- A request whose caller-supplied `input_lang` is the empty string. -/
def c8Req : TranslationRequest :=
  { text := "Hello world", target_lang := "de", input_lang := some "" }

/-- C8 counterexample: the caller supplies `input_lang = ""`, which is
present and differs (case-sensitively) from the detected "en", yet the
stored record has `original_lang = "en"` (the detected language, not the
supplied one) and `mismatch_detected = false` — Python truthiness treats
the supplied empty string as absent. -/
theorem original_lang_empty_input_counterexample :
    c8Req.input_lang = some "" ∧ defaultEnv.detect = .returns "en" ∧
    ("" : String) ≠ "en" ∧
    (translate_text defaultEnv c8Req []).1 =
      .ok { id := 1, original_text := "Hello world", original_lang := "en",
            translated_text := "Hallo Welt", output_lang := "de",
            timestamp := "T0", mismatch_detected := false } :=
  ⟨rfl, rfl, by decide, rfl⟩

/-- C8 amended: for a successful request whose detected language is `d`,
the record's `original_lang` is the caller-supplied `input_lang` when a
non-empty one is supplied, and the detected language when `input_lang` is
absent or the empty string; `mismatch_detected` is true iff the supplied
`input_lang` is non-empty and differs case-sensitively from `d`. -/
theorem translate_text_original_lang_mismatch (env : Env) (req : TranslationRequest)
    (bucket : Bucket) (d : String) (r : TranslationRecord)
    (hdet : env.detect = .returns d)
    (hok : (translate_text env req bucket).1 = .ok r) :
    (∀ s, req.input_lang = some s → s ≠ "" →
      r.original_lang = s ∧ (r.mismatch_detected = true ↔ s ≠ d)) ∧
    ((req.input_lang = none ∨ req.input_lang = some "") →
      r.original_lang = d ∧ r.mismatch_detected = false) := by
  simp only [translate_text, hdet] at hok
  repeat' split at hok
  all_goals try exact Except.noConfusion hok
  all_goals injection hok with hr
  all_goals subst hr
  · rename_i s heq hse
    constructor
    · intro s' hs' hne
      rw [heq] at hs'
      injection hs' with hss
      subst hss
      exact absurd hse hne
    · intro _
      subst hse
      exact ⟨rfl, rfl⟩
  · rename_i s heq hse
    constructor
    · intro s' hs' hne
      rw [heq] at hs'
      injection hs' with hss
      subst hss
      refine ⟨rfl, ?_⟩
      simp [hne]
    · rintro (hh | hh)
      · rw [heq] at hh
        exact Option.noConfusion hh
      · rw [heq] at hh
        injection hh with hss
        exact absurd hss hse
  · rename_i heq
    constructor
    · intro s' hs' hne
      rw [heq] at hs'
      exact Option.noConfusion hs'
    · intro _
      exact ⟨rfl, rfl⟩

/-- Witness for C8's amended theorem: with detected language "en" and the
caller supplying `input_lang = "lt"`, the stored record carries
`original_lang = "lt"` and `mismatch_detected = true`. -/
theorem translate_text_original_lang_mismatch_witness :
    ({ id := 1, original_text := "Hello world", original_lang := "lt",
       translated_text := "Hallo Welt", output_lang := "de",
       timestamp := "T0", mismatch_detected := true } :
        TranslationRecord).original_lang = "lt" ∧
    (({ id := 1, original_text := "Hello world", original_lang := "lt",
        translated_text := "Hallo Welt", output_lang := "de",
        timestamp := "T0", mismatch_detected := true } :
        TranslationRecord).mismatch_detected = true ↔ ("lt" : String) ≠ "en") :=
  (translate_text_original_lang_mismatch defaultEnv
    { text := "Hello world", target_lang := "de", input_lang := some "lt" } [] "en"
    { id := 1, original_text := "Hello world", original_lang := "lt",
      translated_text := "Hallo Welt", output_lang := "de",
      timestamp := "T0", mismatch_detected := true }
    rfl rfl).1 "lt" rfl (by decide)

end TranslationApi
